import Mathlib

/-!
Shallow embedding of the resumable download pipelines of jw-media-download.

The main model follows `src/media-vtt.py`: a persistent state table
(`downloaded_vtts`, keyed by pubSymbol/track/formatCode), a per-entry
orchestrator (`download_vtt_files`) that consults the table, resolves media
links, scans the response for a subtitle URL under the fixed MP4-then-MP3
format order, and fetches with a bounded retry loop and exponential backoff.
A second model follows the analogous retry loop and skip check of
`src/publications-jwpub.py` (`download_jwpubs`).

Network and database effects are embedded as explicit values: a resolver
function stands for `get_pub_media_links` (returning `none` when the code
would get `None` after an exception), a fetch oracle gives the outcome of
each `requests.get` attempt, and the orchestrator returns the list of
observable events (resolution calls, fetch attempts, sleeps, file writes,
database writes) alongside the updated state table.
-/

/-- The status strings ever written to the `downloaded_vtts` table by
`media-vtt.py`: 'success', 'failed', 'skipped', 'no_subtitles'
(the last is the pipeline's "unavailable" outcome). -/
inductive VttStatus where
  | success
  | failed
  | skipped
  | no_subtitles
deriving DecidableEq, Repr

/-- Composite key of the `downloaded_vtts` table: (pubSymbol, track, formatCode). -/
abbrev VttKey := String × Int × String

/-- State database of `media-vtt.py`. `ok = false` models a database whose
reads raise (the `except` branch of `is_vtt_processed`); `records` holds one
row per key (the table has a UNIQUE constraint on the key columns), each with
its nullable `vtt_url` and its status. -/
structure VttDb where
  ok : Bool
  records : List (VttKey × (Option String × VttStatus))
deriving DecidableEq, Repr

/-- `is_vtt_processed` (media-vtt.py lines 46-63): SELECT the status for the
key, returning `None` both when no row exists and when the query raises. -/
def is_vtt_processed (db : VttDb) (k : VttKey) : Option VttStatus :=
  if db.ok then
    (db.records.find? (fun r => decide (r.1 = k))).map (fun r => r.2.2)
  else
    none

/-- `mark_vtt_as_downloaded` (media-vtt.py lines 65-78): INSERT OR REPLACE of
the row for the key. -/
def mark_vtt_as_downloaded (db : VttDb) (k : VttKey) (url : Option String)
    (st : VttStatus) : VttDb :=
  { db with records := (k, (url, st)) :: db.records.filter (fun r => decide (r.1 ≠ k)) }

/-- One media item from the catalog, as consumed by `download_vtt_files`:
the tuple appended by `extract_media_info`. -/
structure MediaEntry where
  pubSymbol : String
  track : Int
  formatCode : String
  naturalKey : String
deriving DecidableEq, Repr

/-- The composite key of an entry. -/
def entryKey (e : MediaEntry) : VttKey := (e.pubSymbol, e.track, e.formatCode)

/-- One line of the decompressed catalog, as seen by `extract_media_info`:
`malformed` stands for a line on which `json.loads(line)` (or the
`item['type']` access) raises; `other` for a parsed line whose type is not
'media-item'; `mediaItem` carries the four optional fields read with `.get`. -/
inductive CatLine where
  | malformed
  | other
  | mediaItem (pubSymbol : Option String) (track : Option Int)
      (formatCode : Option String) (naturalKey : Option String)
deriving DecidableEq, Repr

/-- The guard of media-vtt.py line 123: `pubSymbol and track is not None and
formatCode and naturalKey` — string fields must be present and non-empty
(Python truthiness) while `track` is only compared against `None`. -/
def keepEntry? (ps : Option String) (tr : Option Int) (fc : Option String)
    (nk : Option String) : Option MediaEntry :=
  match ps, tr, fc, nk with
  | some ps, some tr, some fc, some nk =>
    if ps ≠ "" ∧ fc ≠ "" ∧ nk ≠ "" then some ⟨ps, tr, fc, nk⟩ else none
  | _, _, _, _ => none

/-- `extract_media_info` (media-vtt.py lines 108-129). The `try` block wraps
the whole loop, so a line that raises ends the scan and the entries collected
so far are returned; a parsed line of another type is merely skipped. -/
def extract_media_info : List CatLine → List MediaEntry
  | [] => []
  | .malformed :: _ => []
  | .other :: rest => extract_media_info rest
  | .mediaItem ps tr fc nk :: rest =>
    match keepEntry? ps tr fc nk with
    | some e => e :: extract_media_info rest
    | none => extract_media_info rest

/-- Substring test on lists of characters, embedding Python's `in` operator
on strings. -/
def listHasSub (needle : List Char) : List Char → Bool
  | [] => needle.isEmpty
  | c :: rest => needle.isPrefixOf (c :: rest) || listHasSub needle rest

/-- The exclusion marker phrase of media-vtt.py lines 171 and 185. -/
def audioDescMarker : String := "(con audiodescripciones)"

/-- `"(con audiodescripciones)" in s`. -/
def strHasMarker (s : String) : Bool := listHasSub audioDescMarker.data s.data

/-- A file descriptor from the resolver response: `title` is
`file.get('title', '')`; `subtitles = some sub` models the 'subtitles' key
being present, with `sub` the value of its optional 'url' key. -/
structure FileDesc where
  title : String
  subtitles : Option (Option String)
deriving DecidableEq, Repr

/-- The subtitle URL of a descriptor, when `'subtitles' in file and 'url' in
file['subtitles']` holds. -/
def hasSubUrl (f : FileDesc) : Option String :=
  match f.subtitles with
  | some u => u
  | none => none

/-- `media_links["files"].get(JW_LANG, {})` restricted to the two format
labels the code reads; an absent language branch is the pair of empty lists. -/
structure LangFiles where
  mp4 : List FileDesc
  mp3 : List FileDesc
deriving DecidableEq, Repr

/-- A `get_pub_media_links` response: `pubName` is
`media_links.get('pubName', '')` and `files = none` models a response dict
with no 'files' key. -/
structure MediaLinks where
  pubName : String
  files : Option LangFiles
deriving DecidableEq, Repr

/-- Result of scanning one list of file descriptors (the inner loop of
media-vtt.py lines 182-195): the first descriptor whose title contains the
marker causes exclusion, the first with a subtitle URL is selected, and each
check happens in response order with exclusion tested first per descriptor. -/
inductive ScanResult where
  | excluded
  | found (url : String)
  | nothing
deriving DecidableEq, Repr

/-- The inner descriptor loop of `download_vtt_files`. -/
def scanFiles : List FileDesc → ScanResult
  | [] => .nothing
  | f :: rest =>
    if strHasMarker f.title then .excluded
    else
      match hasSubUrl f with
      | some u => .found u
      | none => scanFiles rest

/-- The outer format loop of media-vtt.py line 181: MP4 first, then MP3,
stopping as soon as a scan excluded or found a URL. -/
def scanFormats (lf : LangFiles) : ScanResult :=
  match scanFiles lf.mp4 with
  | .nothing => scanFiles lf.mp3
  | r => r

/-- Outcome of one `requests.get(vtt_file_url)` attempt: success,
a `requests.exceptions.RequestException` (transient), or any other
exception (fatal). -/
inductive FetchOutcome where
  | ok
  | transient
  | fatal
deriving DecidableEq, Repr

/-- Observable events of one `download_vtt_files` run. -/
inductive Event where
  | resolve (k : VttKey)
  | fetchAttempt (url : String)
  | sleep (secs : Nat)
  | fileWrite (filename : String)
  | dbWrite (k : VttKey) (url : Option String) (st : VttStatus)
deriving DecidableEq, Repr

/-- The environment of a run: `resolver` embeds `get_pub_media_links`
(`none` when the call returns `None` after an exception) and `fetch` gives
the outcome of the fetch attempt numbered `rc` (0-based) on a URL. -/
structure Env where
  resolver : VttKey → Option MediaLinks
  fetch : String → Nat → FetchOutcome

/-- The retry loop of media-vtt.py lines 200-235. `rc` is `retry_count`;
`fuel` is the number of loop iterations still allowed, which equals
`maxRetries - rc` whenever the loop is reached from `processEntry`. On
success: fetch, file write, 'success' row. On a transient error: increment,
and either sleep `2 ** retry_count` seconds and continue, or (when attempts
are exhausted) write a 'failed' row. On any other error: write a 'failed'
row and leave the loop at once. -/
def vttRetryGo (fetch : String → Nat → FetchOutcome) (maxRetries : Nat)
    (k : VttKey) (url nk : String) (db : VttDb) (rc fuel : Nat) :
    List Event × VttDb :=
  match fuel with
  | 0 => ([], db)
  | fuel + 1 =>
    match fetch url rc with
    | .ok =>
      ([.fetchAttempt url, .fileWrite (nk ++ ".vtt"),
        .dbWrite k (some url) .success],
        mark_vtt_as_downloaded db k (some url) .success)
    | .transient =>
      if rc + 1 < maxRetries then
        let r := vttRetryGo fetch maxRetries k url nk db (rc + 1) fuel
        (.fetchAttempt url :: .sleep (2 ^ (rc + 1)) :: r.1, r.2)
      else
        ([.fetchAttempt url, .dbWrite k (some url) .failed],
          mark_vtt_as_downloaded db k (some url) .failed)
    | .fatal =>
      ([.fetchAttempt url, .dbWrite k (some url) .failed],
        mark_vtt_as_downloaded db k (some url) .failed)

/-- One iteration of the entry loop of `download_vtt_files`
(media-vtt.py lines 152-246): skip check on 'success' and 'failed', then
resolution, the pubName exclusion check, the format scan, and either the
retry loop, a 'skipped' row, a 'no_subtitles' row, or a 'failed' row when no
usable response came back. -/
def processEntry (env : Env) (maxRetries : Nat) (db : VttDb) (e : MediaEntry) :
    List Event × VttDb :=
  if is_vtt_processed db (entryKey e) = some VttStatus.success ∨
      is_vtt_processed db (entryKey e) = some VttStatus.failed then
    ([], db)
  else
    match env.resolver (entryKey e) with
    | none =>
      ([.resolve (entryKey e), .dbWrite (entryKey e) none .failed],
        mark_vtt_as_downloaded db (entryKey e) none .failed)
    | some ml =>
      match ml.files with
      | none =>
        ([.resolve (entryKey e), .dbWrite (entryKey e) none .failed],
          mark_vtt_as_downloaded db (entryKey e) none .failed)
      | some lf =>
        if strHasMarker ml.pubName then
          ([.resolve (entryKey e), .dbWrite (entryKey e) none .skipped],
            mark_vtt_as_downloaded db (entryKey e) none .skipped)
        else
          match scanFormats lf with
          | .excluded =>
            ([.resolve (entryKey e), .dbWrite (entryKey e) none .skipped],
              mark_vtt_as_downloaded db (entryKey e) none .skipped)
          | .found url =>
            let r := vttRetryGo env.fetch maxRetries (entryKey e) url
              e.naturalKey db 0 maxRetries
            (.resolve (entryKey e) :: r.1, r.2)
          | .nothing =>
            ([.resolve (entryKey e), .dbWrite (entryKey e) none .no_subtitles],
              mark_vtt_as_downloaded db (entryKey e) none .no_subtitles)

/-- `download_vtt_files` (media-vtt.py lines 151-246): the entry loop,
threading the state database. -/
def download_vtt_files (env : Env) (maxRetries : Nat) (db : VttDb) :
    List MediaEntry → List Event × VttDb
  | [] => ([], db)
  | e :: rest =>
    let r := processEntry env maxRetries db e
    let r2 := download_vtt_files env maxRetries r.2 rest
    (r.1 ++ r2.1, r2.2)

/-- Event observers. -/
def isFetchAttempt : Event → Bool
  | .fetchAttempt _ => true
  | _ => false

/-- Seconds slept, for sleep events. -/
def sleepSecs : Event → Option Nat
  | .sleep n => some n
  | _ => none

/-- Database-write events. -/
def isDbWrite : Event → Bool
  | .dbWrite _ _ _ => true
  | _ => false

/-- The state strings ever written to the `PublicationState` table by
`publications-jwpub.py`: 'processed', 'no_jwpub', 'failed'. -/
inductive JwState where
  | processed
  | no_jwpub
  | failed
deriving DecidableEq, Repr

/-- Key of the `PublicationState` table: (IssueTagNumber, Symbol). -/
abbrev JwKey := Int × String

/-- The `PublicationState` table: one row per key, holding the KeySymbol and
the state. -/
structure JwDb where
  records : List (JwKey × (String × JwState))
deriving DecidableEq, Repr

/-- SELECT State FROM PublicationState WHERE IssueTagNumber=? AND Symbol=?. -/
def jwLookupState (db : JwDb) (k : JwKey) : Option JwState :=
  (db.records.find? (fun r => decide (r.1 = k))).map (fun r => r.2.2)

/-- INSERT OR REPLACE INTO PublicationState. -/
def jwUpsert (db : JwDb) (k : JwKey) (ks : String) (st : JwState) : JwDb :=
  ⟨(k, (ks, st)) :: db.records.filter (fun r => decide (r.1 ≠ k))⟩

/-- Outcome of one iteration of the publication retry loop
(publications-jwpub.py lines 178-249): a completed download with the chosen
filename, an empty JWPUB file list, a `requests.exceptions.RequestException`
anywhere in the iteration (transient), or any other exception (fatal). -/
inductive JwOutcome where
  | ok (filename : String)
  | noFiles
  | transient
  | fatal
deriving DecidableEq, Repr

/-- Observable events of the publication pipeline. -/
inductive JwEvent where
  | attempt (n : Nat)
  | sleep (secs : Nat)
  | fileWrite (filename : String)
  | stateWrite (k : JwKey) (keySymbol : String) (st : JwState)
deriving DecidableEq, Repr

/-- The retry loop of publications-jwpub.py lines 173-249. `rc` is
`retry_count`, `w` is the current `wait_time` (initially 2, doubled after
each sleep), and `fuel` is the number of iterations still allowed, equal to
`maxRetries - rc` at every call from `jwProcessPublication`. A successful
download writes the file and a 'processed' row (the `download_successful`
flag then ends the loop); an empty file list writes a 'no_jwpub' row and
breaks; a transient error sleeps and retries until attempts run out, then
writes a 'failed' row; any other error writes a 'failed' row and breaks. -/
def jwRetryGo (att : Nat → JwOutcome) (maxRetries : Nat) (k : JwKey)
    (ks : String) (db : JwDb) (rc w fuel : Nat) : List JwEvent × JwDb :=
  match fuel with
  | 0 => ([], db)
  | fuel + 1 =>
    match att rc with
    | .ok fname =>
      ([.attempt rc, .fileWrite fname, .stateWrite k ks .processed],
        jwUpsert db k ks .processed)
    | .noFiles =>
      ([.attempt rc, .stateWrite k ks .no_jwpub], jwUpsert db k ks .no_jwpub)
    | .transient =>
      if rc + 1 < maxRetries then
        let r := jwRetryGo att maxRetries k ks db (rc + 1) (w * 2) fuel
        (.attempt rc :: .sleep w :: r.1, r.2)
      else
        ([.attempt rc, .stateWrite k ks .failed], jwUpsert db k ks .failed)
    | .fatal =>
      ([.attempt rc, .stateWrite k ks .failed], jwUpsert db k ks .failed)

/-- One iteration of the publication loop of `download_jwpubs`
(publications-jwpub.py lines 157-253): the skip check passes over a key only
when its stored state equals 'processed'; every other state, and an absent
row, proceeds to the retry loop (with `max_retries = 3` and an initial
`wait_time` of 2, as hard-coded at lines 174-176). -/
def jwProcessPublication (att : Nat → JwOutcome) (db : JwDb) (itn : Int)
    (sym ks : String) : List JwEvent × JwDb :=
  match jwLookupState db (itn, sym) with
  | some .processed => ([], db)
  | _ => jwRetryGo att 3 (itn, sym) ks db 0 2 3

/-- Attempt events of the publication pipeline. -/
def isJwAttempt : JwEvent → Bool
  | .attempt _ => true
  | _ => false

/-- Seconds slept, for publication sleep events. -/
def jwSleepSecs : JwEvent → Option Nat
  | .sleep n => some n
  | _ => none

/-- Concrete inputs used by witnesses and counterexamples. -/
def cKey : VttKey := ("abc", 1, "VIDEO")

/-- A concrete catalog entry (the spec's scenario entry). -/
def cEntry : MediaEntry := ⟨"abc", 1, "VIDEO", "X1"⟩

/-- A resolver response with a language branch but no descriptors at all. -/
def cMlEmpty : MediaLinks := { pubName := "Demo", files := some ⟨[], []⟩ }

/-- A resolver response whose pubName carries the exclusion marker. -/
def cMlMarker : MediaLinks :=
  { pubName := "Video (con audiodescripciones)", files := some ⟨[], []⟩ }

/-- A resolver response with one MP4 descriptor carrying a subtitle URL. -/
def cMlFound : MediaLinks :=
  { pubName := "Demo",
    files := some ⟨[⟨"Part 1", some (some "https://example/x.vtt")⟩], []⟩ }

/-- Environment whose resolver always returns the empty response and whose
fetches always fail transiently. -/
def cEnvEmpty : Env :=
  { resolver := fun _ => some cMlEmpty, fetch := fun _ _ => .transient }

/-- Environment whose resolver always returns the marker response. -/
def cEnvMarker : Env :=
  { resolver := fun _ => some cMlMarker, fetch := fun _ _ => .transient }

/-- Environment whose resolver finds a subtitle URL and whose fetches always
raise a non-transient error. -/
def cEnvFatal : Env :=
  { resolver := fun _ => some cMlFound, fetch := fun _ _ => .fatal }

/-- A readable state database holding a 'skipped' row for `cKey`. -/
def cDbSkipped : VttDb := ⟨true, [(cKey, (none, .skipped))]⟩

/-- A readable state database holding a 'failed' row for `cKey`. -/
def cDbFailed : VttDb := ⟨true, [(cKey, (some "u", .failed))]⟩

/-- A readable state database holding a 'success' row for `cKey`. -/
def cDbSuccess : VttDb := ⟨true, [(cKey, (some "u", .success))]⟩

/-- An unreadable state database that nonetheless holds a 'success' row. -/
def cDbBroken : VttDb := ⟨false, [(cKey, (some "u", .success))]⟩

/-- The empty readable state database. -/
def cDbEmpty : VttDb := ⟨true, []⟩

/-- A fetch oracle that always raises a RequestException. -/
def cFetchT : String → Nat → FetchOutcome := fun _ _ => .transient

/-- A publication attempt oracle that always raises a RequestException. -/
def cAttT : Nat → JwOutcome := fun _ => .transient

/-- The empty publication state table. -/
def cJdbEmpty : JwDb := ⟨[]⟩

/-- A publication state table holding a 'failed' row. -/
def cJdbFailed : JwDb := ⟨[((0, "w"), ("km", JwState.failed))]⟩

/-- Helper: any entry whose skip check does not fire begins with its
resolution call. -/
theorem processEntry_resolves (env : Env) (m : Nat) (db : VttDb) (e : MediaEntry)
    (hstat : ¬(is_vtt_processed db (entryKey e) = some VttStatus.success ∨
      is_vtt_processed db (entryKey e) = some VttStatus.failed)) :
    ((processEntry env m db e).1).head? = some (.resolve (entryKey e)) := by
  unfold processEntry
  rw [if_neg hstat]
  cases hr : env.resolver (entryKey e) with
  | none => simp
  | some ml =>
    cases hf : ml.files with
    | none => simp [hf]
    | some lf =>
      by_cases hm : strHasMarker ml.pubName
      · simp [hf, hm]
      · cases hs : scanFormats lf <;> simp [hf, hm, hs]

/-- Helper: whenever the retry loop is entered with fuel matching the
remaining attempt budget, it emits exactly one database write, as its final
event. -/
theorem vttRetryGo_one_write (fetch : String → Nat → FetchOutcome) (m : Nat)
    (k : VttKey) (url nk : String) :
    ∀ fuel rc db, fuel + rc = m → 0 < fuel →
      ∃ pre u st, (vttRetryGo fetch m k url nk db rc fuel).1 =
          pre ++ [Event.dbWrite k u st] ∧ pre.filter isDbWrite = [] := by
  intro fuel
  induction fuel with
  | zero => intro rc db _ h; omega
  | succ fuel ih =>
    intro rc db hinv _
    cases hf : fetch url rc with
    | ok =>
      exact ⟨[.fetchAttempt url, .fileWrite (nk ++ ".vtt")], some url, .success,
        by simp [vttRetryGo, hf], by simp [isDbWrite]⟩
    | fatal =>
      exact ⟨[.fetchAttempt url], some url, .failed,
        by simp [vttRetryGo, hf], by simp [isDbWrite]⟩
    | transient =>
      by_cases hlt : rc + 1 < m
      · have hfuel : 0 < fuel := by omega
        obtain ⟨pre, u, st, heq, hclean⟩ := ih (rc + 1) db (by omega) hfuel
        refine ⟨.fetchAttempt url :: .sleep (2 ^ (rc + 1)) :: pre, u, st, ?_, ?_⟩
        · simp [vttRetryGo, hf, hlt, heq]
        · simp [isDbWrite, hclean]
      · exact ⟨[.fetchAttempt url], some url, .failed,
          by simp [vttRetryGo, hf, hlt], by simp [isDbWrite]⟩

/-- Helper: under an always-transient fetch oracle, the retry loop makes one
attempt per unit of fuel, sleeps `2^(rc+1), 2^(rc+2), ...` between attempts,
and ends with a 'failed' database write. -/
theorem vttRetryGo_all_transient (fetch : String → Nat → FetchOutcome)
    (m : Nat) (k : VttKey) (url nk : String)
    (hT : ∀ i, fetch url i = FetchOutcome.transient) :
    ∀ fuel rc db, fuel + rc = m → 0 < fuel →
      ((vttRetryGo fetch m k url nk db rc fuel).1.filter isFetchAttempt).length
          = fuel
      ∧ (vttRetryGo fetch m k url nk db rc fuel).1.filterMap sleepSecs
          = (List.range (fuel - 1)).map (fun i => 2 ^ (rc + 1 + i))
      ∧ ∃ pre, (vttRetryGo fetch m k url nk db rc fuel).1 =
          pre ++ [Event.dbWrite k (some url) VttStatus.failed] := by
  intro fuel
  induction fuel with
  | zero => intro rc db _ h; omega
  | succ fuel ih =>
    intro rc db hinv _
    by_cases hlt : rc + 1 < m
    · have hfuel : 0 < fuel := by omega
      obtain ⟨hlen, hsleeps, pre, heq⟩ := ih (rc + 1) db (by omega) hfuel
      refine ⟨?_, ?_, ?_⟩
      · simp [vttRetryGo, hT, hlt, isFetchAttempt, hlen]
      · obtain ⟨g, hg⟩ : ∃ g, fuel = g + 1 := ⟨fuel - 1, by omega⟩
        simp only [vttRetryGo, hT, hlt, if_pos, List.filterMap_cons, sleepSecs,
          hsleeps]
        rw [hg]
        simp only [Nat.add_sub_cancel, List.range_succ_eq_map, List.map_cons,
          List.map_map]
        refine congrArg₂ List.cons (by simp) ?_
        apply List.map_congr_left
        intro a _
        simp only [Function.comp_apply]
        congr 1
        omega
      · exact ⟨.fetchAttempt url :: .sleep (2 ^ (rc + 1)) :: pre,
          by simp [vttRetryGo, hT, hlt, heq]⟩
    · refine ⟨?_, ?_, ⟨[.fetchAttempt url], ?_⟩⟩
      · have : fuel = 0 := by omega
        simp [vttRetryGo, hT, hlt, isFetchAttempt, this]
      · have : fuel = 0 := by omega
        simp [vttRetryGo, hT, hlt, sleepSecs, this]
      · simp [vttRetryGo, hT, hlt]

/-- Helper: under an always-transient attempt oracle, the publication retry
loop makes one attempt per unit of fuel, sleeps `w, 2w, 4w, ...` between
attempts, and ends with a 'failed' state write. -/
theorem jwRetryGo_all_transient (att : Nat → JwOutcome) (m : Nat) (k : JwKey)
    (ks : String) (hA : ∀ i, att i = JwOutcome.transient) :
    ∀ fuel rc w db, fuel + rc = m → 0 < fuel →
      ((jwRetryGo att m k ks db rc w fuel).1.filter isJwAttempt).length = fuel
      ∧ (jwRetryGo att m k ks db rc w fuel).1.filterMap jwSleepSecs
          = (List.range (fuel - 1)).map (fun i => w * 2 ^ i)
      ∧ ∃ pre, (jwRetryGo att m k ks db rc w fuel).1 =
          pre ++ [JwEvent.stateWrite k ks JwState.failed] := by
  intro fuel
  induction fuel with
  | zero => intro rc w db _ h; omega
  | succ fuel ih =>
    intro rc w db hinv _
    by_cases hlt : rc + 1 < m
    · have hfuel : 0 < fuel := by omega
      obtain ⟨hlen, hsleeps, pre, heq⟩ := ih (rc + 1) (w * 2) db (by omega) hfuel
      refine ⟨?_, ?_, ?_⟩
      · simp [jwRetryGo, hA, hlt, isJwAttempt, hlen]
      · obtain ⟨g, hg⟩ : ∃ g, fuel = g + 1 := ⟨fuel - 1, by omega⟩
        simp only [jwRetryGo, hA, hlt, if_pos, List.filterMap_cons, jwSleepSecs,
          hsleeps]
        rw [hg]
        simp only [Nat.add_sub_cancel, List.range_succ_eq_map, List.map_cons,
          List.map_map]
        refine congrArg₂ List.cons (by simp) ?_
        apply List.map_congr_left
        intro a _
        simp only [Function.comp_apply]
        rw [pow_succ]
        ring
      · exact ⟨.attempt rc :: .sleep w :: pre,
          by simp [jwRetryGo, hA, hlt, heq]⟩
    · refine ⟨?_, ?_, ⟨[.attempt rc], ?_⟩⟩
      · have : fuel = 0 := by omega
        simp [jwRetryGo, hA, hlt, isJwAttempt, this]
      · have : fuel = 0 := by omega
        simp [jwRetryGo, hA, hlt, jwSleepSecs, this]
      · simp [jwRetryGo, hA, hlt]

/-- Helper: scanning a concatenation is the scan of the first list unless it
finds nothing. -/
theorem scanFiles_append (a b : List FileDesc) :
    scanFiles (a ++ b) =
      match scanFiles a with
      | .nothing => scanFiles b
      | r => r := by
  induction a with
  | nil => simp [scanFiles]
  | cons f rest ih =>
    by_cases hm : strHasMarker f.title
    · simp [scanFiles, hm]
    · cases hs : hasSubUrl f with
      | none => simpa [scanFiles, hm, hs] using ih
      | some u => simp [scanFiles, hm, hs]

/-- Helper: a descriptor list whose members all lack both the marker and a
subtitle URL scans to nothing. -/
theorem scanFiles_all_clean (fs : List FileDesc)
    (h : ∀ g ∈ fs, strHasMarker g.title = false ∧ hasSubUrl g = none) :
    scanFiles fs = .nothing := by
  induction fs with
  | nil => rfl
  | cons f rest ih =>
    obtain ⟨h1, h2⟩ := h f (by simp)
    simp only [scanFiles, h1, h2, Bool.false_eq_true, if_false]
    exact ih (fun g hg => h g (by simp [hg]))

/-- Helper: a clean prefix followed by a marker-bearing descriptor scans to
exclusion. -/
theorem scanFiles_excluded (fs₁ : List FileDesc) (f : FileDesc)
    (fs₂ : List FileDesc)
    (hclean : ∀ g ∈ fs₁, strHasMarker g.title = false ∧ hasSubUrl g = none)
    (hf : strHasMarker f.title = true) :
    scanFiles (fs₁ ++ f :: fs₂) = .excluded := by
  induction fs₁ with
  | nil => simp [scanFiles, hf]
  | cons g rest ih =>
    obtain ⟨h1, h2⟩ := hclean g (by simp)
    simp only [List.cons_append, scanFiles, h1, h2, Bool.false_eq_true, if_false]
    exact ih (fun g' hg' => hclean g' (by simp [hg']))

/-- Helper: the format loop equals a single scan of the MP4 list followed by
the MP3 list. -/
theorem scanFormats_eq_append (lf : LangFiles) :
    scanFormats lf = scanFiles (lf.mp4 ++ lf.mp3) := by
  unfold scanFormats
  rw [scanFiles_append]

/-- Claim C1 (amended): only 'success' or 'failed' make the skip check a
no-op. -/
theorem c1_success_failed_noop (env : Env) (m : Nat) (db : VttDb)
    (e : MediaEntry)
    (h : is_vtt_processed db (entryKey e) = some VttStatus.success ∨
      is_vtt_processed db (entryKey e) = some VttStatus.failed) :
    processEntry env m db e = ([], db) := by
  unfold processEntry
  rw [if_pos h]

/-- Claim C1 witness. -/
theorem c1_success_failed_noop_wit :
    (is_vtt_processed cDbSuccess (entryKey cEntry) = some VttStatus.success ∨
      is_vtt_processed cDbSuccess (entryKey cEntry) = some VttStatus.failed)
    ∧ processEntry cEnvEmpty 3 cDbSuccess cEntry = ([], cDbSuccess) :=
  ⟨by decide, c1_success_failed_noop cEnvEmpty 3 cDbSuccess cEntry (by decide)⟩

/-- Claim C1 counterexample: a key persisted as 'skipped' is re-resolved. -/
theorem c1_skipped_reprocessed_cex :
    (processEntry cEnvMarker 3 cDbSkipped cEntry).1 =
      [Event.resolve cKey, Event.dbWrite cKey none VttStatus.skipped]
    ∧ Event.resolve cKey ∈ (processEntry cEnvMarker 3 cDbSkipped cEntry).1 := by
  decide

/-- Claim C2: one write, at the end, after the resolution call. -/
theorem c2_exactly_one_write (env : Env) (m : Nat) (db : VttDb)
    (e : MediaEntry) (hm : 0 < m)
    (hstat : ¬(is_vtt_processed db (entryKey e) = some VttStatus.success ∨
      is_vtt_processed db (entryKey e) = some VttStatus.failed)) :
    ∃ mid u st, (processEntry env m db e).1 =
        Event.resolve (entryKey e) :: (mid ++ [Event.dbWrite (entryKey e) u st])
      ∧ mid.filter isDbWrite = [] := by
  unfold processEntry
  rw [if_neg hstat]
  cases hr : env.resolver (entryKey e) with
  | none => exact ⟨[], none, .failed, by simp, rfl⟩
  | some ml =>
    cases hf : ml.files with
    | none => exact ⟨[], none, .failed, by simp [hf], rfl⟩
    | some lf =>
      by_cases hmk : strHasMarker ml.pubName
      · exact ⟨[], none, .skipped, by simp [hf, hmk], rfl⟩
      · cases hs : scanFormats lf with
        | excluded => exact ⟨[], none, .skipped, by simp [hf, hmk, hs], rfl⟩
        | nothing =>
          exact ⟨[], none, .no_subtitles, by simp [hf, hmk, hs], rfl⟩
        | found url =>
          obtain ⟨pre, u, st, heq, hclean⟩ :=
            vttRetryGo_one_write env.fetch m (entryKey e) url e.naturalKey m 0
              db (by omega) hm
          exact ⟨pre, u, st, by simp [hf, hmk, hs, heq], hclean⟩

/-- Claim C2 witness. -/
theorem c2_exactly_one_write_wit :
    0 < 3 ∧ ∃ mid u st, (processEntry cEnvEmpty 3 cDbEmpty cEntry).1 =
        Event.resolve (entryKey cEntry) ::
          (mid ++ [Event.dbWrite (entryKey cEntry) u st])
      ∧ mid.filter isDbWrite = [] :=
  ⟨by decide,
    c2_exactly_one_write cEnvEmpty 3 cDbEmpty cEntry (by decide) (by decide)⟩

/-- Claim C3: always-transient fetches give exactly maxRetries attempts,
sleeps of 2^1 .. 2^(maxRetries-1) seconds between attempts (none before the
first), and a terminal 'failed' write, in both pipelines. -/
theorem c3_retry_exhaustion (maxRetries : Nat) (h : 0 < maxRetries)
    (fetch : String → Nat → FetchOutcome) (k : VttKey) (url nk : String)
    (db : VttDb) (hT : ∀ i, fetch url i = FetchOutcome.transient)
    (att : Nat → JwOutcome) (jk : JwKey) (ks : String) (jdb : JwDb)
    (hA : ∀ i, att i = JwOutcome.transient) :
    (((vttRetryGo fetch maxRetries k url nk db 0 maxRetries).1.filter
        isFetchAttempt).length = maxRetries
      ∧ (vttRetryGo fetch maxRetries k url nk db 0 maxRetries).1.filterMap
          sleepSecs = (List.range (maxRetries - 1)).map (fun i => 2 ^ (i + 1))
      ∧ ∃ pre, (vttRetryGo fetch maxRetries k url nk db 0 maxRetries).1 =
          pre ++ [Event.dbWrite k (some url) VttStatus.failed])
    ∧ (((jwRetryGo att maxRetries jk ks jdb 0 2 maxRetries).1.filter
        isJwAttempt).length = maxRetries
      ∧ (jwRetryGo att maxRetries jk ks jdb 0 2 maxRetries).1.filterMap
          jwSleepSecs = (List.range (maxRetries - 1)).map (fun i => 2 ^ (i + 1))
      ∧ ∃ pre, (jwRetryGo att maxRetries jk ks jdb 0 2 maxRetries).1 =
          pre ++ [JwEvent.stateWrite jk ks JwState.failed]) := by
  obtain ⟨h1, h2, h3⟩ :=
    vttRetryGo_all_transient fetch maxRetries k url nk hT maxRetries 0 db
      (by omega) h
  obtain ⟨g1, g2, g3⟩ :=
    jwRetryGo_all_transient att maxRetries jk ks hA maxRetries 0 2 jdb
      (by omega) h
  refine ⟨⟨h1, ?_, h3⟩, ⟨g1, ?_, g3⟩⟩
  · rw [h2]
    apply List.map_congr_left
    intro a _
    congr 1
    omega
  · rw [g2]
    apply List.map_congr_left
    intro a _
    rw [pow_succ]
    ring

/-- Claim C3 witness. -/
theorem c3_retry_exhaustion_wit :
    0 < 3
    ∧ ((((vttRetryGo cFetchT 3 cKey "u" "X1" cDbEmpty 0 3).1.filter
        isFetchAttempt).length = 3
      ∧ (vttRetryGo cFetchT 3 cKey "u" "X1" cDbEmpty 0 3).1.filterMap
          sleepSecs = (List.range 2).map (fun i => 2 ^ (i + 1))
      ∧ ∃ pre, (vttRetryGo cFetchT 3 cKey "u" "X1" cDbEmpty 0 3).1 =
          pre ++ [Event.dbWrite cKey (some "u") VttStatus.failed])
    ∧ (((jwRetryGo cAttT 3 (0, "w") "km" cJdbEmpty 0 2 3).1.filter
        isJwAttempt).length = 3
      ∧ (jwRetryGo cAttT 3 (0, "w") "km" cJdbEmpty 0 2 3).1.filterMap
          jwSleepSecs = (List.range 2).map (fun i => 2 ^ (i + 1))
      ∧ ∃ pre, (jwRetryGo cAttT 3 (0, "w") "km" cJdbEmpty 0 2 3).1 =
          pre ++ [JwEvent.stateWrite (0, "w") "km" JwState.failed])) :=
  ⟨by decide,
    c3_retry_exhaustion 3 (by decide) cFetchT cKey "u" "X1" cDbEmpty
      (fun _ => rfl) cAttT (0, "w") "km" cJdbEmpty (fun _ => rfl)⟩

/-- Claim C4 counterexample: a 'failed' key is skipped, not re-attempted. -/
theorem c4_failed_skipped_cex :
    processEntry cEnvEmpty 3 cDbFailed cEntry = ([], cDbFailed)
    ∧ Event.resolve cKey ∉ (processEntry cEnvEmpty 3 cDbFailed cEntry).1 := by
  decide

/-- Claim C4 (amended): in the VTT pipeline 'skipped', 'no_subtitles', and
absent records are re-attempted; in the publication pipeline every state
other than 'processed' is re-attempted. -/
theorem c4_retry_eligibility (env : Env) (m : Nat) (db : VttDb)
    (e : MediaEntry)
    (hstat : is_vtt_processed db (entryKey e) = some VttStatus.skipped ∨
      is_vtt_processed db (entryKey e) = some VttStatus.no_subtitles ∨
      is_vtt_processed db (entryKey e) = none)
    (att : Nat → JwOutcome) (jdb : JwDb) (itn : Int) (sym ks : String)
    (hj : jwLookupState jdb (itn, sym) = some JwState.failed ∨
      jwLookupState jdb (itn, sym) = some JwState.no_jwpub ∨
      jwLookupState jdb (itn, sym) = none) :
    ((processEntry env m db e).1).head? = some (Event.resolve (entryKey e))
    ∧ ((jwProcessPublication att jdb itn sym ks).1).head? =
        some (JwEvent.attempt 0) := by
  constructor
  · apply processEntry_resolves
    rcases hstat with h | h | h <;> simp [h]
  · have hloop : jwProcessPublication att jdb itn sym ks =
        jwRetryGo att 3 (itn, sym) ks jdb 0 2 3 := by
      unfold jwProcessPublication
      rcases hj with h | h | h <;> rw [h]
    rw [hloop]
    cases o : att 0 <;> simp [jwRetryGo, o]

/-- Claim C4 witness. -/
theorem c4_retry_eligibility_wit :
    ((processEntry cEnvEmpty 3 cDbSkipped cEntry).1).head? =
        some (Event.resolve (entryKey cEntry))
    ∧ ((jwProcessPublication cAttT cJdbFailed 0 "w" "km").1).head? =
        some (JwEvent.attempt 0) :=
  c4_retry_eligibility cEnvEmpty 3 cDbSkipped cEntry (by decide)
    cAttT cJdbFailed 0 "w" "km" (by decide)

/-- Claim C5 counterexample: a malformed line loses every later line. -/
theorem c5_malformed_aborts_cex :
    extract_media_info
        [CatLine.mediaItem (some "a") (some 1) (some "VIDEO") (some "K1"),
          CatLine.malformed,
          CatLine.mediaItem (some "b") (some 2) (some "AUDIO") (some "K2")]
      = [⟨"a", 1, "VIDEO", "K1"⟩]
    ∧ (⟨"b", 2, "AUDIO", "K2"⟩ : MediaEntry) ∉
        extract_media_info
          [CatLine.mediaItem (some "a") (some 1) (some "VIDEO") (some "K1"),
            CatLine.malformed,
            CatLine.mediaItem (some "b") (some 2) (some "AUDIO") (some "K2")] := by
  decide

/-- Claim C5 (amended): lines after the first malformed line never influence
the result, while a wrong-type line is skipped and scanning continues. -/
theorem c5_malformed_aborts (ls₁ ls₂ ls₂' : List CatLine) :
    extract_media_info (ls₁ ++ CatLine.malformed :: ls₂)
        = extract_media_info (ls₁ ++ CatLine.malformed :: ls₂')
    ∧ extract_media_info (CatLine.other :: ls₂) = extract_media_info ls₂ := by
  constructor
  · induction ls₁ with
    | nil => rfl
    | cons l rest ih =>
      cases l with
      | malformed => rfl
      | other => simpa [extract_media_info] using ih
      | mediaItem ps tr fc nk =>
        cases hk : keepEntry? ps tr fc nk <;>
          simp [extract_media_info, hk, ih]
  · rfl

/-- Claim C5 witness. -/
theorem c5_malformed_aborts_wit :
    extract_media_info ([CatLine.other] ++ CatLine.malformed :: [CatLine.other])
        = extract_media_info ([CatLine.other] ++ CatLine.malformed :: [])
    ∧ extract_media_info (CatLine.other :: [CatLine.other]) =
        extract_media_info [CatLine.other] :=
  c5_malformed_aborts [CatLine.other] [CatLine.other] []

/-- Claim C6: an exclusion match reached before any subtitle URL, in
pubName or in MP4-then-MP3 response order, ends the entry as 'skipped' with
no fetch attempt and no file write. -/
theorem c6_exclusion_skipped (env : Env) (m : Nat) (db : VttDb)
    (e : MediaEntry) (ml : MediaLinks) (lf : LangFiles)
    (hstat : ¬(is_vtt_processed db (entryKey e) = some VttStatus.success ∨
      is_vtt_processed db (entryKey e) = some VttStatus.failed))
    (hres : env.resolver (entryKey e) = some ml)
    (hfiles : ml.files = some lf)
    (hskip : strHasMarker ml.pubName = true ∨
      ∃ fs₁ f fs₂, lf.mp4 ++ lf.mp3 = fs₁ ++ f :: fs₂
        ∧ (∀ g ∈ fs₁, strHasMarker g.title = false ∧ hasSubUrl g = none)
        ∧ strHasMarker f.title = true) :
    processEntry env m db e =
      ([Event.resolve (entryKey e),
        Event.dbWrite (entryKey e) none VttStatus.skipped],
        mark_vtt_as_downloaded db (entryKey e) none VttStatus.skipped) := by
  unfold processEntry
  rw [if_neg hstat, hres]
  by_cases hmk : strHasMarker ml.pubName
  · simp [hfiles, hmk]
  · rcases hskip with h | ⟨fs₁, f, fs₂, hsplit, hclean, hf⟩
    · exact absurd h hmk
    · have hscan : scanFormats lf = .excluded := by
        rw [scanFormats_eq_append, hsplit]
        exact scanFiles_excluded fs₁ f fs₂ hclean hf
      simp [hfiles, hmk, hscan]

/-- Claim C6 witness. -/
theorem c6_exclusion_skipped_wit :
    processEntry cEnvMarker 3 cDbEmpty cEntry =
      ([Event.resolve (entryKey cEntry),
        Event.dbWrite (entryKey cEntry) none VttStatus.skipped],
        mark_vtt_as_downloaded cDbEmpty (entryKey cEntry) none
          VttStatus.skipped) :=
  c6_exclusion_skipped cEnvMarker 3 cDbEmpty cEntry cMlMarker ⟨[], []⟩
    (by decide) rfl rfl (Or.inl (by decide))

/-- Claim C7: no subtitle URL and no exclusion under any format gives the
'no_subtitles' (spec: unavailable) terminal row and no file write. -/
theorem c7_no_match_unavailable (env : Env) (m : Nat) (db : VttDb)
    (e : MediaEntry) (ml : MediaLinks) (lf : LangFiles)
    (hstat : ¬(is_vtt_processed db (entryKey e) = some VttStatus.success ∨
      is_vtt_processed db (entryKey e) = some VttStatus.failed))
    (hres : env.resolver (entryKey e) = some ml)
    (hfiles : ml.files = some lf)
    (hname : strHasMarker ml.pubName = false)
    (hclean : ∀ g ∈ lf.mp4 ++ lf.mp3,
      strHasMarker g.title = false ∧ hasSubUrl g = none) :
    processEntry env m db e =
      ([Event.resolve (entryKey e),
        Event.dbWrite (entryKey e) none VttStatus.no_subtitles],
        mark_vtt_as_downloaded db (entryKey e) none VttStatus.no_subtitles) := by
  unfold processEntry
  rw [if_neg hstat, hres]
  have hscan : scanFormats lf = .nothing := by
    rw [scanFormats_eq_append]
    exact scanFiles_all_clean _ hclean
  simp [hfiles, hname, hscan]

/-- Claim C7 witness. -/
theorem c7_no_match_unavailable_wit :
    processEntry cEnvEmpty 3 cDbEmpty cEntry =
      ([Event.resolve (entryKey cEntry),
        Event.dbWrite (entryKey cEntry) none VttStatus.no_subtitles],
        mark_vtt_as_downloaded cDbEmpty (entryKey cEntry) none
          VttStatus.no_subtitles) :=
  c7_no_match_unavailable cEnvEmpty 3 cDbEmpty cEntry cMlEmpty ⟨[], []⟩
    (by decide) rfl rfl (by decide) (by simp)

/-- Claim C8: a fatal fetch error ends the entry after one attempt with no
sleep and a 'failed' row, and the run continues with the remaining
entries. -/
theorem c8_fatal_single_attempt (env : Env) (m : Nat) (db : VttDb)
    (e : MediaEntry) (ml : MediaLinks) (lf : LangFiles) (url : String)
    (rest : List MediaEntry) (hm : 0 < m)
    (hstat : ¬(is_vtt_processed db (entryKey e) = some VttStatus.success ∨
      is_vtt_processed db (entryKey e) = some VttStatus.failed))
    (hres : env.resolver (entryKey e) = some ml)
    (hfiles : ml.files = some lf)
    (hname : strHasMarker ml.pubName = false)
    (hscan : scanFormats lf = ScanResult.found url)
    (hfatal : env.fetch url 0 = FetchOutcome.fatal) :
    (processEntry env m db e).1 =
      [Event.resolve (entryKey e), Event.fetchAttempt url,
        Event.dbWrite (entryKey e) (some url) VttStatus.failed]
    ∧ (download_vtt_files env m db (e :: rest)).1 =
        (processEntry env m db e).1 ++
          (download_vtt_files env m (processEntry env m db e).2 rest).1 := by
  constructor
  · obtain ⟨f, hfm⟩ : ∃ f, m = f + 1 := ⟨m - 1, by omega⟩
    unfold processEntry
    rw [if_neg hstat, hres]
    simp [hfiles, hname, hscan, hfm, vttRetryGo, hfatal]
  · simp [download_vtt_files]

/-- Claim C8 witness. -/
theorem c8_fatal_single_attempt_wit :
    (processEntry cEnvFatal 3 cDbEmpty cEntry).1 =
      [Event.resolve (entryKey cEntry),
        Event.fetchAttempt "https://example/x.vtt",
        Event.dbWrite (entryKey cEntry) (some "https://example/x.vtt")
          VttStatus.failed]
    ∧ (download_vtt_files cEnvFatal 3 cDbEmpty [cEntry]).1 =
        (processEntry cEnvFatal 3 cDbEmpty cEntry).1 ++
          (download_vtt_files cEnvFatal 3
            (processEntry cEnvFatal 3 cDbEmpty cEntry).2 []).1 :=
  c8_fatal_single_attempt cEnvFatal 3 cDbEmpty cEntry cMlFound
    ⟨[⟨"Part 1", some (some "https://example/x.vtt")⟩], []⟩
    "https://example/x.vtt" [] (by decide) (by decide) rfl rfl
    (by decide) (by decide) rfl

/-- Claim C9: track 0 is kept, empty pubSymbol or formatCode is dropped. -/
theorem c9_track_zero_truthiness (ps fc nk : String) (tr : Option Int)
    (hps : ps ≠ "") (hfc : fc ≠ "") (hnk : nk ≠ "") :
    extract_media_info
        [CatLine.mediaItem (some ps) (some 0) (some fc) (some nk)]
        = [⟨ps, 0, fc, nk⟩]
    ∧ extract_media_info
        [CatLine.mediaItem (some "") tr (some fc) (some nk)] = []
    ∧ extract_media_info
        [CatLine.mediaItem (some ps) tr (some "") (some nk)] = [] := by
  refine ⟨?_, ?_, ?_⟩
  · simp [extract_media_info, keepEntry?, hps, hfc, hnk]
  · cases tr <;> simp [extract_media_info, keepEntry?]
  · cases tr <;> simp [extract_media_info, keepEntry?]

/-- Claim C9 witness. -/
theorem c9_track_zero_truthiness_wit :
    extract_media_info
        [CatLine.mediaItem (some "abc") (some 0) (some "VIDEO") (some "K")]
        = [⟨"abc", 0, "VIDEO", "K"⟩]
    ∧ extract_media_info
        [CatLine.mediaItem (some "") (some 1) (some "VIDEO") (some "K")] = []
    ∧ extract_media_info
        [CatLine.mediaItem (some "abc") (some 1) (some "") (some "K")] = [] :=
  c9_track_zero_truthiness "abc" "VIDEO" "K" (some 1) (by decide) (by decide)
    (by decide)

/-- Claim C10: an unreadable state database reads as absent, so the key is
processed from scratch and never skipped. -/
theorem c10_lookup_error_degrades (db : VttDb) (h : db.ok = false)
    (k : VttKey) :
    is_vtt_processed db k = none
    ∧ ∀ env m e, entryKey e = k →
        ((processEntry env m db e).1).head? = some (Event.resolve k) := by
  constructor
  · simp [is_vtt_processed, h]
  · intro env m e hk
    subst hk
    apply processEntry_resolves
    simp [is_vtt_processed, h]

/-- Claim C10 witness. -/
theorem c10_lookup_error_degrades_wit :
    is_vtt_processed cDbBroken cKey = none
    ∧ ((processEntry cEnvEmpty 3 cDbBroken cEntry).1).head? =
        some (Event.resolve cKey) :=
  ⟨(c10_lookup_error_degrades cDbBroken (by decide) cKey).1,
    (c10_lookup_error_degrades cDbBroken (by decide) cKey).2 cEnvEmpty 3
      cEntry (by decide)⟩
